import Mathlib

/-!
Shallow embedding of the gesture / AR-object core of the WebAR plant
application (src/config.js, src/js/hand-tracking.js, src/js/orb-creator.js,
src/js/pendant-creator.js), together with theorems settling the frozen
claims about it.

Conventions of the embedding:
* landmark coordinates and thresholds are rationals (the source computes in
  JS numbers; all comparisons relevant to the claims are between exactly
  representable decimal constants and polynomial expressions);
* the source compares `Math.sqrt(d)` with a threshold `t ≥ 0`; the embedding
  stores the squared distance and compares with `t ^ 2`, which is equivalent
  (lemma `sqrt_lt_iff_sq` below records the bridge);
* timestamps (`Date.now()`) are integers, one logical tick per millisecond;
* a JS property read that misses (`CONFIG.gestures.fistPinchExclusion`, which
  is absent from config.js) is an `Option` that is `none`; a JS `<` against
  `undefined` is `false`, which the embedding makes explicit.
-/

namespace WebAR

/-- One hand landmark: a 3-D point in normalized image space
(MediaPipe delivers objects with `x`, `y`, `z` fields). -/
structure Landmark where
  x : ℚ
  y : ℚ
  z : ℚ
deriving DecidableEq, Repr

/-- Out-of-range landmark reads never happen on 21-point frames; the
default value only makes `lm` total. -/
def defaultLandmark : Landmark := ⟨0, 0, 0⟩

/-- `landmarks[i]` on a frame given as a list. -/
def lm (l : List Landmark) (i : ℕ) : Landmark := l.getD i defaultLandmark

/-- Squared Euclidean distance between two landmarks.  The source computes
`Math.sqrt` of this sum (hand-tracking.js, `isPinch` and `isFist`) and
compares the root against a nonnegative threshold. -/
def distSq (a b : Landmark) : ℚ :=
  (a.x - b.x) ^ 2 + (a.y - b.y) ^ 2 + (a.z - b.z) ^ 2

/-! Configuration constants from src/config.js. -/

/-- `CONFIG.gestures.pinchThreshold` (0.05). -/
def pinchThreshold : ℚ := 5 / 100

/-- `CONFIG.gestures.cooldownMs` (500). -/
def cooldownMs : ℤ := 500

/-- `CONFIG.performance.maxOrbs` (10). -/
def maxOrbs : ℕ := 10

/-- `CONFIG.performance.maxPendants` (5). -/
def maxPendants : ℕ := 5

/-- `CONFIG.gestures.fistPinchExclusion`: this key is NOT present in
config.js (`gestures` holds only `pinchThreshold`, `openHandThreshold`,
`cooldownMs`), so the property read in `isFist` yields `undefined`. -/
def fistPinchExclusion : Option ℚ := none

/-- `CONFIG.airQuality.thresholds` = [50, 100, 150, 200]. -/
def aqiThresholds : List ℚ := [50, 100, 150, 200]

/-- `CONFIG.temperature.minTemp` (−20 °C). -/
def minTemp : ℚ := -20

/-- `CONFIG.temperature.maxTemp` (45 °C). -/
def maxTemp : ℚ := 45

/-- `CONFIG.temperature.minSpeed` (0.2). -/
def minSpeed : ℚ := 2 / 10

/-- `CONFIG.temperature.maxSpeed` (2.0). -/
def maxSpeed : ℚ := 2

/-! Gesture classifier (hand-tracking.js, `isPinch` / `isOpenHand` /
`isFist` / `detectGesture`). -/

/-- The gesture labels the classifier can produce (`'pinch'`,
`'openHand'`, `'fist'`); the absence of a gesture is `Option.none`. -/
inductive Gesture where
  | pinch
  | openHand
  | fist
deriving DecidableEq, Repr

/-- `isPinch(landmarks)`: thumb tip (4) to index tip (8) Euclidean distance
strictly below `pinchThreshold`; compared on squares. -/
def isPinch (l : List Landmark) : Bool :=
  decide (distSq (lm l 4) (lm l 8) < pinchThreshold ^ 2)

/-- The four non-thumb fingers as (tip, pip) landmark index pairs, as listed
in both `isOpenHand` and `isFist`. -/
def fingerPairs : List (ℕ × ℕ) := [(8, 6), (12, 10), (16, 14), (20, 18)]

/-- Extended-finger count of `isOpenHand`: a non-thumb finger is extended
when `tip.y < pip.y`; the thumb when `|thumbTip.x − thumbIP.x| > 0.05`. -/
def extendedCount (l : List Landmark) : ℕ :=
  (fingerPairs.filter (fun p => decide ((lm l p.1).y < (lm l p.2).y))).length
    + (if |(lm l 4).x - (lm l 3).x| > 5 / 100 then 1 else 0)

/-- `isOpenHand(landmarks)`: at least 4 of the 5 digits extended. -/
def isOpenHand (l : List Landmark) : Bool :=
  decide (4 ≤ extendedCount l)

/-- The exclusion guard at the top of `isFist`: the source evaluates
`pinchDist < CONFIG.gestures.fistPinchExclusion`.  Since that config key is
absent, the right-hand side is `undefined` and the JS comparison is always
`false`; with a present key `t ≥ 0` it would be `distSq < t ^ 2`. -/
def fistExclusionTriggers (l : List Landmark) : Bool :=
  match fistPinchExclusion with
  | none => false
  | some t => decide (distSq (lm l 4) (lm l 8) < t ^ 2)

/-- Closed-finger count of `isFist`: a non-thumb finger is closed when
`tip.y > pip.y`; the thumb when `|thumbTip.x − indexMCP.x| < 0.1`
(indexMCP is landmark 5). -/
def closedCount (l : List Landmark) : ℕ :=
  (fingerPairs.filter (fun p => decide ((lm l p.2).y < (lm l p.1).y))).length
    + (if |(lm l 4).x - (lm l 5).x| < 1 / 10 then 1 else 0)

/-- `isFist(landmarks)`: exclusion guard first, then at least 4 of the 5
digits closed. -/
def isFist (l : List Landmark) : Bool :=
  if fistExclusionTriggers l then false
  else decide (4 ≤ closedCount l)

/-- The pure classification cascade of `detectGesture` (the part after the
cooldown check): pinch, then open hand, then fist; first match wins. -/
def classify (l : List Landmark) : Option Gesture :=
  if isPinch l then some .pinch
  else if isOpenHand l then some .openHand
  else if isFist l then some .fist
  else none

/-! Debouncer (the `HandTracking` mutable state updated by `onResults`,
`detectGesture` and `handleGesture`). -/

/-- The `HandTracking` state the gesture path reads and writes:
`lastGestureTime` (initially 0), `currentGesture` (initially null) and the
cached `handLandmarks`. -/
structure TrackState where
  lastGestureTime : ℤ
  currentGesture : Option Gesture
  handLandmarks : Option (List Landmark)
deriving DecidableEq, Repr

/-- The constructor state of `HandTracking`. -/
def initTrackState : TrackState := ⟨0, none, none⟩

/-- `detectGesture(landmarks)`: `null` during cooldown
(`now − lastGestureTime < cooldownMs`), otherwise the classification. -/
def detectGesture (st : TrackState) (now : ℤ) (l : List Landmark) :
    Option Gesture :=
  if now - st.lastGestureTime < cooldownMs then none else classify l

/-- One `onResults` callback: a missing frame clears `handLandmarks` and
`currentGesture` and returns; otherwise the detected gesture fires
`handleGesture` (which stamps `lastGestureTime := now` and emits the event)
exactly when it is non-null and differs from `currentGesture`, and
`currentGesture` is set to the detected gesture.  The second component is
the emitted event, if any. -/
def onResults (st : TrackState) (now : ℤ) (frame : Option (List Landmark)) :
    TrackState × Option (Gesture × ℤ) :=
  match frame with
  | none => ({ st with handLandmarks := none, currentGesture := none }, none)
  | some l =>
    let g := detectGesture st now l
    match g with
    | some g' =>
      if st.currentGesture ≠ some g' then
        (⟨now, some g', some l⟩, some (g', now))
      else
        ({ st with currentGesture := some g', handLandmarks := some l }, none)
    | none =>
      ({ st with currentGesture := none, handLandmarks := some l }, none)

/-- Run `onResults` over a trace of (timestamp, optional frame) ticks,
collecting emitted events in order. -/
def runTrace (st : TrackState) :
    List (ℤ × Option (List Landmark)) → TrackState × List (Gesture × ℤ)
  | [] => (st, [])
  | (t, f) :: rest =>
    let r := onResults st t f
    let r' := runTrace r.1 rest
    (r'.1, r.2.toList ++ r'.2)

/-- A 21-point frame whose thumb tip and index tip coincide: distance 0,
a pinch-satisfying frame. -/
def pinchFrame : List Landmark := List.replicate 21 ⟨0, 0, 0⟩

/-- A 21-point frame matching no gesture rule: thumb tip at x = 1/2 far
from index tip at the origin (no pinch), every tip at the same height as
its PIP (neither extended nor closed), thumb neither extended
(thumbIP.x = thumbTip.x) nor closed (indexMCP.x far from thumbTip.x). -/
def neutralFrame : List Landmark :=
  (List.range 21).map
    (fun i => if i = 3 ∨ i = 4 then ⟨1 / 2, 0, 0⟩ else ⟨0, 0, 0⟩)

/-- `n` consecutive ticks delivering `pinchFrame`, one per millisecond,
starting at time `t`. -/
def pinchTicks (t : ℤ) : ℕ → List (ℤ × Option (List Landmark))
  | 0 => []
  | n + 1 => (t, some pinchFrame) :: pinchTicks (t + 1) n

/-- `n` consecutive ticks delivering `neutralFrame`, one per millisecond,
starting at time `t`. -/
def neutralTicks (t : ℤ) : ℕ → List (ℤ × Option (List Landmark))
  | 0 => []
  | n + 1 => (t, some neutralFrame) :: neutralTicks (t + 1) n

/-! Bounded pools (orb-creator.js `createOrb` lines
`this.orbs.push(orb); if (this.orbs.length > CONFIG.performance.maxOrbs)
this.removeOrb(this.orbs[0]);` and the identical pendant pair in
pendant-creator.js `createPendant`).  `removeOrb(this.orbs[0])` /
`removePendant(this.pendants[0])` splice out index 0 and dispose that
object's resources; the second component collects what was evicted and
disposed. -/

/-- One insertion into a bounded pool: append, then if the size exceeds
`cap` evict the single oldest element.  Returns (new pool, evicted). -/
def poolInsert (cap : ℕ) (pool : List α) (x : α) : List α × List α :=
  let p := pool ++ [x]
  if cap < p.length then (p.drop 1, p.take 1) else (p, [])

/-- Iterated insertion, accumulating everything evicted/disposed. -/
def poolInsertAll (cap : ℕ) : List α → List α → List α × List α
  | pool, [] => (pool, [])
  | pool, x :: xs =>
    let r := poolInsert cap pool x
    let r' := poolInsertAll cap r.1 xs
    (r'.1, r.2 ++ r'.2)

/-! Visual mapper (orb-creator.js `mapDataToVisuals` over the constants of
config.js). -/

/-- The `weatherData` fields `mapDataToVisuals` reads. -/
structure WeatherData where
  temperature : ℚ
  condition : String
deriving DecidableEq, Repr

/-- The `airQualityData` field `mapDataToVisuals` reads (US AQI scale). -/
structure AirQualityData where
  aqiUS : ℚ
deriving DecidableEq, Repr

/-- The visual-parameter record `mapDataToVisuals` returns. -/
structure VisualParams where
  color : String
  morphFactor : ℚ
  spikiness : ℚ
  animationSpeed : ℚ
deriving DecidableEq, Repr

/-- `CONFIG.weather.shapes` lookup with the `||`-fallback to the `clear`
entry, as `CONFIG.weather.shapes[condition] || CONFIG.weather.shapes.clear`. -/
def shapeFor (condition : String) : ℚ × ℚ :=
  if condition = "clear" then (0, 1 / 10)
  else if condition = "clouds" then (2 / 10, 15 / 100)
  else if condition = "rain" then (5 / 10, 3 / 10)
  else if condition = "drizzle" then (4 / 10, 25 / 100)
  else if condition = "thunderstorm" then (8 / 10, 6 / 10)
  else if condition = "snow" then (3 / 10, 4 / 10)
  else if condition = "mist" then (2 / 10, 1 / 10)
  else (0, 1 / 10)

/-- `mapDataToVisuals(weatherData, airQualityData)`: AQI → color by the
chained `<=` thresholds, condition (lower-cased) → shape with `clear`
fallback, temperature → normalized then clamped animation speed. -/
def mapDataToVisuals (w : WeatherData) (a : AirQualityData) : VisualParams :=
  let aqi := a.aqiUS
  let color :=
    if aqi ≤ aqiThresholds.getD 0 0 then "#00ff88"
    else if aqi ≤ aqiThresholds.getD 1 0 then "#ffeb3b"
    else if aqi ≤ aqiThresholds.getD 2 0 then "#ff9800"
    else if aqi ≤ aqiThresholds.getD 3 0 then "#f44336"
    else "#9c27b0"
  let shape := shapeFor w.condition.toLower
  let tempNormalized := (w.temperature - minTemp) / (maxTemp - minTemp)
  let animationSpeed := minSpeed + tempNormalized * (maxSpeed - minSpeed)
  { color := color
    morphFactor := shape.1
    spikiness := shape.2
    animationSpeed := max minSpeed (min animationSpeed maxSpeed) }

/-- The fallback `weatherData` built in the `catch` branch of `createOrb`
(temperature 20, condition `'clear'`). -/
def fallbackWeather : WeatherData := ⟨20, "clear"⟩

/-- The fallback `airQualityData` built in the `catch` branch of
`createOrb` (`aqiUS: 50`). -/
def fallbackAir : AirQualityData := ⟨50⟩

/-- The data/pool path of `createOrb(position)`: on a failed environmental
fetch the fallback data is substituted and creation proceeds; the data is
mapped to visuals, the orb is appended to `this.orbs`, and the oldest orb
is evicted past capacity.  Returns (new orb pool, data handed to
`mapDataToVisuals`). -/
def createOrbRun (pool : List (VisualParams × WeatherData × AirQualityData))
    (fetch : Option (WeatherData × AirQualityData)) :
    List (VisualParams × WeatherData × AirQualityData)
      × (WeatherData × AirQualityData) :=
  let data := match fetch with
    | some d => d
    | none => (fallbackWeather, fallbackAir)
  let orb := (mapDataToVisuals data.1 data.2, data)
  ((poolInsert maxOrbs pool orb).1, data)

/-! Object / connection model (orb-creator.js and pendant-creator.js
singletons: `orbs`, `pendants`, `connections`, and the wrist-attachment
fields of `OrbCreator`). -/

/-- The kind tag stored in `userData.type`. -/
inductive ObjKind where
  | orb
  | pendant
deriving DecidableEq, Repr

/-- An AR object, identified by id, with its kind and its
`userData.attachedToWrist` flag. -/
structure ARObject where
  id : ℕ
  kind : ObjKind
  attachedToWrist : Bool
deriving DecidableEq, Repr

/-- A connection line's `userData` as built by `createConnection(obj1,
obj2)`: `pendant` is `obj1` if it is a pendant, else `obj2` if that is a
pendant, else null; symmetrically for `orb`; `obj1`/`obj2` are the two
endpoints. -/
structure Connection where
  pendant : Option ℕ
  orb : Option ℕ
  obj1 : ℕ
  obj2 : ℕ
deriving DecidableEq, Repr

/-- `createConnection(obj1, obj2)` (pendant-creator.js, second revision):
records the pendant-typed endpoint, the orb-typed endpoint, and both raw
endpoints. -/
def createConnection (o1 o2 : ARObject) : Connection :=
  { pendant :=
      if o1.kind = .pendant then some o1.id
      else if o2.kind = .pendant then some o2.id
      else none
    orb :=
      if o1.kind = .orb then some o1.id
      else if o2.kind = .orb then some o2.id
      else none
    obj1 := o1.id
    obj2 := o2.id }

/-- A connection references an object when either endpoint is that
object's id. -/
def refersTo (c : Connection) (i : ℕ) : Prop := c.obj1 = i ∨ c.obj2 = i

/-- The combined mutable state of the `orbCreator` and `pendantCreator`
singletons that the create/remove/clear actions touch. -/
structure WorldState where
  orbs : List ARObject
  pendants : List ARObject
  connections : List Connection
  wristOrbs : List ℕ
  wristPosition : Option Landmark
  wristOrientation : Option (Landmark × Landmark)
  isWristTracking : Bool
deriving DecidableEq, Repr

/-- `removeOrb(orb)` (orb-creator.js): splices the orb out of `this.orbs`,
removes it from the scene/tags and disposes its geometry and material.  It
does not mention `connections` at all. -/
def removeOrb (st : WorldState) (o : ARObject) : WorldState :=
  { st with orbs := st.orbs.erase o }

/-- `removePendant(pendant)` (pendant-creator.js): splices the pendant out
of `this.pendants` and filters `this.connections`, dropping (and
disposing) exactly those whose `userData.pendant` is the removed
pendant. -/
def removePendant (st : WorldState) (p : ARObject) : WorldState :=
  { st with
    pendants := st.pendants.erase p
    connections := st.connections.filter (fun c => ¬ c.pendant = some p.id) }

/-- `connectToOrbs(pendant)`: pushes one `createConnection(pendant, orb)`
per orb currently in `orbCreator.orbs`. -/
def connectToOrbs (st : WorldState) (p : ARObject) : WorldState :=
  { st with
    connections := st.connections ++ st.orbs.map (fun o => createConnection p o) }

/-- The pool/graph path of `createPendant(position)` once the plant
precondition held: push onto `this.pendants`, connect to every existing
orb, then evict the oldest pendant past capacity via `removePendant`. -/
def createPendant (st : WorldState) (p : ARObject) : WorldState :=
  let st1 := { st with pendants := st.pendants ++ [p] }
  let st2 := connectToOrbs st1 p
  if maxPendants < st2.pendants.length then
    match st2.pendants with
    | [] => st2
    | oldest :: _ => removePendant st2 oldest
  else st2

/-- The pool path of `createOrb(position)`: push onto `this.orbs`, then
evict the oldest orb past capacity via `removeOrb`. -/
def createOrb (st : WorldState) (o : ARObject) : WorldState :=
  let st1 := { st with orbs := st.orbs ++ [o] }
  if maxOrbs < st1.orbs.length then
    match st1.orbs with
    | [] => st1
    | oldest :: _ => removeOrb st1 oldest
  else st1

/-- `detachOrbsFromWrist()`: clears the `attachedToWrist` flag of every
orb in `this.wristOrbs`, empties that list, disables wrist tracking and
nulls the stored wrist position and orientation. -/
def detachOrbsFromWrist (st : WorldState) : WorldState :=
  { st with
    orbs := st.orbs.map
      (fun o => if o.id ∈ st.wristOrbs then { o with attachedToWrist := false } else o)
    wristOrbs := []
    isWristTracking := false
    wristPosition := none
    wristOrientation := none }

/-- `clearAllOrbs()`: hides tags, calls `detachOrbsFromWrist()`, then
removes every orb via `removeOrb` and resets `this.orbs = []`. -/
def clearAllOrbs (st : WorldState) : WorldState :=
  let st1 := detachOrbsFromWrist st
  { st1 with orbs := [] }

/-- The empty initial world (both creator singletons freshly constructed). -/
def emptyWorld : WorldState := ⟨[], [], [], [], none, none, false⟩

/-- A sample orb object. -/
def orb1 : ARObject := ⟨1, .orb, false⟩

/-- A sample pendant object. -/
def pendant1 : ARObject := ⟨2, .pendant, false⟩

/-- A sample world with one wrist-attached orb, used to witness the
clear-all behavior. -/
def sampleWorld : WorldState :=
  ⟨[⟨1, .orb, true⟩], [], [], [1], some ⟨0, 0, 0⟩, none, true⟩

/-- A 21-point frame with thumb tip and index tip coincident (their
distance is 0, far below any plausible exclusion threshold) while all four
non-thumb fingertips lie below their PIP joints and the thumb is closed
(`x`-aligned with the index MCP): the fist-with-overlapping-pinch pose. -/
def fistPinchFrame : List Landmark :=
  (List.range 21).map
    (fun i => if i = 4 ∨ i = 8 ∨ i = 12 ∨ i = 16 ∨ i = 20
      then ⟨0, 1, 0⟩ else ⟨0, 0, 0⟩)

/-- A 21-point frame whose thumb-tip/index-tip distance is exactly
`pinchThreshold`: thumb tip at x = 1/20, index tip at the origin. -/
def boundaryFrame : List Landmark :=
  (List.range 21).map (fun i => if i = 4 then ⟨1 / 20, 0, 0⟩ else ⟨0, 0, 0⟩)

end WebAR

namespace WebAR

/-! Helper lemmas shared by the claim theorems. -/

/-- Reading a landmark list built from a function recovers the function. -/
theorem lm_ofFn (f : ℕ → Landmark) (n i : ℕ) (h : i < n) :
    lm ((List.range n).map f) i = f i := by
  simp [lm, List.getD, List.getElem?_map, List.getElem?_range, h]

/-- Reading a constant landmark list recovers the constant. -/
theorem lm_replicate (a : Landmark) (n i : ℕ) (h : i < n) :
    lm (List.replicate n a) i = a := by
  simp [lm, List.getD, List.getElem?_replicate, h]

/-- Nonnegativity of the squared distance. -/
theorem distSq_nonneg (a b : Landmark) : 0 ≤ distSq a b := by
  have hx := sq_nonneg (a.x - b.x)
  have hy := sq_nonneg (a.y - b.y)
  have hz := sq_nonneg (a.z - b.z)
  unfold distSq
  linarith

/-- Bridge between the source's `Math.sqrt(d) < t` comparison and the
embedding's squared comparison, for a positive threshold. -/
theorem sqrt_lt_iff_sq (d t : ℚ) (hd : 0 ≤ d) (ht : 0 < t) :
    Real.sqrt (d : ℝ) < (t : ℝ) ↔ d < t ^ 2 := by
  rw [show ((t : ℝ) = Real.sqrt ((t : ℝ) ^ 2)) from
    (Real.sqrt_sq (by positivity)).symm]
  rw [Real.sqrt_lt_sqrt_iff (by exact_mod_cast hd)]
  constructor
  · intro h
    exact_mod_cast h
  · intro h
    exact_mod_cast h

/-- The pinch predicate in terms of the source's real square root. -/
theorem isPinch_iff_sqrt (l : List Landmark) :
    isPinch l = true ↔
      Real.sqrt ((distSq (lm l 4) (lm l 8) : ℚ) : ℝ) < (pinchThreshold : ℝ) := by
  rw [isPinch, decide_eq_true_eq,
    sqrt_lt_iff_sq _ _ (distSq_nonneg _ _) (by norm_num [pinchThreshold])]

/-- The neutral frame matches no classifier rule. -/
theorem classify_neutralFrame : classify neutralFrame = none := by
  have habs : |(1 : ℚ) / 2 - 0| = 1 / 2 := by norm_num
  have habs2 : |(1 : ℚ) / 2 - 1 / 2| = 0 := by norm_num
  have habs3 : |(1 : ℚ) / 2| = 1 / 2 := by norm_num
  norm_num [classify, isPinch, isOpenHand, isFist, extendedCount, closedCount,
    fistExclusionTriggers, fistPinchExclusion, fingerPairs, neutralFrame,
    lm_ofFn, distSq, pinchThreshold, List.filter, habs, habs2, habs3]

/-- The pinch frame classifies as a pinch. -/
theorem classify_pinchFrame : classify pinchFrame = some .pinch := by
  norm_num [classify, isPinch, pinchFrame, lm_replicate, distSq, pinchThreshold]

/-- C6: a tick with no hand frame (tracking lost) clears the remembered
`currentGesture` (and the cached landmarks) immediately in that same tick,
leaves `lastGestureTime` untouched, and emits no event — the resulting
debouncer state is completely determined by these facts. -/
theorem tracking_loss_resets_observed_only (st : TrackState) (now : ℤ) :
    onResults st now none = (⟨st.lastGestureTime, none, none⟩, none) := rfl

/-- C7: `mapDataToVisuals` buckets the AQI by the ascending thresholds
[50, 100, 150, 200] into the five color tiers good `#00ff88`, moderate
`#ffeb3b`, unhealthy `#ff9800`, very-unhealthy `#f44336`, hazardous
`#9c27b0`, each upper bound inclusive; in particular 50 is good and 51 is
moderate. -/
theorem aqi_bucketing (w : WeatherData) (aqi : ℚ) :
    (aqi ≤ 50 → (mapDataToVisuals w ⟨aqi⟩).color = "#00ff88") ∧
    (50 < aqi → aqi ≤ 100 → (mapDataToVisuals w ⟨aqi⟩).color = "#ffeb3b") ∧
    (100 < aqi → aqi ≤ 150 → (mapDataToVisuals w ⟨aqi⟩).color = "#ff9800") ∧
    (150 < aqi → aqi ≤ 200 → (mapDataToVisuals w ⟨aqi⟩).color = "#f44336") ∧
    (200 < aqi → (mapDataToVisuals w ⟨aqi⟩).color = "#9c27b0") ∧
    (mapDataToVisuals w ⟨50⟩).color = "#00ff88" ∧
    (mapDataToVisuals w ⟨51⟩).color = "#ffeb3b" := by
  have t0 : aqiThresholds.getD 0 0 = 50 := rfl
  have t1 : aqiThresholds.getD 1 0 = 100 := rfl
  have t2 : aqiThresholds.getD 2 0 = 150 := rfl
  have t3 : aqiThresholds.getD 3 0 = 200 := rfl
  have key : ∀ x : ℚ, (mapDataToVisuals w ⟨x⟩).color =
      (if x ≤ 50 then "#00ff88"
        else if x ≤ 100 then "#ffeb3b"
        else if x ≤ 150 then "#ff9800"
        else if x ≤ 200 then "#f44336"
        else "#9c27b0") := by
    intro x
    simp only [mapDataToVisuals, t0, t1, t2, t3]
  refine ⟨?_, ?_, ?_, ?_, ?_, ?_, ?_⟩ <;> intros <;> rw [key] <;>
    split_ifs <;> first | rfl | linarith

/-- Witness for C7 at a concrete AQI in the third tier. -/
theorem aqi_bucketing_witness :
    ((100 : ℚ) < 120 ∧ (120 : ℚ) ≤ 150) ∧
      (mapDataToVisuals ⟨20, "clear"⟩ ⟨120⟩).color = "#ff9800" :=
  ⟨by norm_num, (aqi_bucketing ⟨20, "clear"⟩ 120).2.2.1 (by norm_num) (by norm_num)⟩

/-- C8: when the environmental fetch fails, orb creation still completes —
the new orb is appended (it is the last element of the resulting pool) —
and `mapDataToVisuals` receives exactly the fallback data
(temperature 20 °C, condition `"clear"`, aqiUS 50). -/
theorem orb_creation_fallback
    (pool : List (VisualParams × WeatherData × AirQualityData)) :
    (createOrbRun pool none).2 = (fallbackWeather, fallbackAir) ∧
    (createOrbRun pool none).1.getLast?
      = some (mapDataToVisuals fallbackWeather fallbackAir,
          fallbackWeather, fallbackAir) ∧
    (createOrbRun pool none).1 ≠ [] := by
  have hlast : (createOrbRun pool none).1.getLast?
      = some (mapDataToVisuals fallbackWeather fallbackAir,
          fallbackWeather, fallbackAir) := by
    simp only [createOrbRun, poolInsert, maxOrbs]
    split
    · rename_i h
      match pool with
      | [] => simp at h
      | p :: rest => simp [List.getLast?_concat]
    · simp [List.getLast?_concat]
  refine ⟨rfl, hlast, ?_⟩
  intro hnil
  rw [hnil] at hlast
  simp at hlast

/-- C10: `clearAllOrbs` empties the orb pool, empties the wrist-attached
list, disables wrist tracking and clears the stored wrist position and
orientation; `detachOrbsFromWrist` (which it calls) clears the
`attachedToWrist` flag of every formerly wrist-attached orb. -/
theorem clear_all_orbs_detaches (st : WorldState) :
    (clearAllOrbs st).orbs = [] ∧
    (clearAllOrbs st).wristOrbs = [] ∧
    (clearAllOrbs st).isWristTracking = false ∧
    (clearAllOrbs st).wristPosition = none ∧
    (clearAllOrbs st).wristOrientation = none ∧
    ∀ o ∈ (detachOrbsFromWrist st).orbs,
      o.id ∈ st.wristOrbs → o.attachedToWrist = false := by
  refine ⟨rfl, rfl, rfl, rfl, rfl, ?_⟩
  intro o ho hid
  simp only [detachOrbsFromWrist, List.mem_map] at ho
  obtain ⟨o', _, rfl⟩ := ho
  by_cases h : o'.id ∈ st.wristOrbs
  · simp [h]
  · rw [if_neg h] at hid
    exact absurd hid h

/-- Witness for C10 on a concrete world with one wrist-attached orb. -/
theorem clear_all_orbs_detaches_witness :
    ((⟨1, ObjKind.orb, false⟩ : ARObject) ∈ (detachOrbsFromWrist sampleWorld).orbs
        ∧ (1 : ℕ) ∈ sampleWorld.wristOrbs) ∧
      (clearAllOrbs sampleWorld).orbs = [] ∧
      (ARObject.mk 1 ObjKind.orb false).attachedToWrist = false :=
  ⟨⟨by decide, by decide⟩, (clear_all_orbs_detaches sampleWorld).1,
    (clear_all_orbs_detaches sampleWorld).2.2.2.2.2 ⟨1, .orb, false⟩
      (by decide) (by decide)⟩

/-- C4 evaluation: on the fist-with-overlapping-pinch frame the
thumb-tip/index-tip distance is 0, yet the exclusion guard of `isFist`
never triggers (it compares against the absent
`CONFIG.gestures.fistPinchExclusion`, i.e. against `undefined`) and the
fist rule matches. -/
theorem fist_exclusion_never_triggers :
    distSq (lm fistPinchFrame 4) (lm fistPinchFrame 8) = 0 ∧
    fistExclusionTriggers fistPinchFrame = false ∧
    isFist fistPinchFrame = true := by
  have habs : |(0 : ℚ) - 0| = 0 := by norm_num
  refine ⟨?_, rfl, ?_⟩
  · norm_num [fistPinchFrame, lm_ofFn, distSq]
  · norm_num [isFist, closedCount, fistExclusionTriggers, fistPinchExclusion,
      fingerPairs, fistPinchFrame, lm_ofFn, List.filter, habs]

/-- C1 counterexample: create one orb, create one pendant (which connects
to the orb), then remove the orb — the connection survives, still naming
the removed orb as an endpoint, while the orb is in no pool. -/
theorem connection_dangles_after_removeOrb :
    (removeOrb (createPendant (createOrb emptyWorld orb1) pendant1) orb1).orbs
        = [] ∧
    (removeOrb (createPendant (createOrb emptyWorld orb1) pendant1) orb1).pendants
        = [pendant1] ∧
    (removeOrb (createPendant (createOrb emptyWorld orb1) pendant1) orb1).connections
        = [createConnection pendant1 orb1] ∧
    refersTo (createConnection pendant1 orb1) orb1.id ∧
    pendant1.id ≠ orb1.id := by
  refine ⟨by decide, by decide, by decide, ?_, by decide⟩
  right
  decide

/-- C5: if the thumb-tip/index-tip Euclidean distance is strictly below
`pinchThreshold` then classification returns Pinch regardless of any other
rule (pinch is checked first); a distance exactly equal to the threshold
does not match the pinch rule (the comparison is strict), so
classification cannot return Pinch then. -/
theorem pinch_priority_and_strict_boundary (l : List Landmark) :
    (Real.sqrt ((distSq (lm l 4) (lm l 8) : ℚ) : ℝ) < ((pinchThreshold : ℚ) : ℝ) →
      classify l = some .pinch) ∧
    (Real.sqrt ((distSq (lm l 4) (lm l 8) : ℚ) : ℝ) = ((pinchThreshold : ℚ) : ℝ) →
      isPinch l = false ∧ classify l ≠ some .pinch) := by
  constructor
  · intro h
    have hp : isPinch l = true := (isPinch_iff_sqrt l).mpr h
    simp [classify, hp]
  · intro h
    have hd : distSq (lm l 4) (lm l 8) = pinchThreshold ^ 2 := by
      have h0 : ((distSq (lm l 4) (lm l 8) : ℚ) : ℝ)
          = (((pinchThreshold : ℚ)) : ℝ) ^ 2 := by
        rw [← h]
        exact (Real.sq_sqrt (by exact_mod_cast distSq_nonneg _ _)).symm
      exact_mod_cast h0
    have hp : isPinch l = false := by
      simp [isPinch, hd]
    refine ⟨hp, ?_⟩
    simp only [classify, hp, Bool.false_eq_true, if_false]
    split_ifs <;> simp

/-- Witness for C5: the coincident-tip frame is strictly inside the
threshold and classifies as Pinch; the boundary frame sits exactly at the
threshold and fails the pinch rule. -/
theorem pinch_priority_witness :
    Real.sqrt ((distSq (lm pinchFrame 4) (lm pinchFrame 8) : ℚ) : ℝ)
        < ((pinchThreshold : ℚ) : ℝ) ∧
    classify pinchFrame = some Gesture.pinch ∧
    Real.sqrt ((distSq (lm boundaryFrame 4) (lm boundaryFrame 8) : ℚ) : ℝ)
        = ((pinchThreshold : ℚ) : ℝ) ∧
    isPinch boundaryFrame = false := by
  have hd0 : distSq (lm pinchFrame 4) (lm pinchFrame 8) = 0 := by
    norm_num [pinchFrame, lm_replicate, distSq]
  have hdb : distSq (lm boundaryFrame 4) (lm boundaryFrame 8) = 1 / 400 := by
    norm_num [boundaryFrame, lm_ofFn, distSq]
  have h1 : Real.sqrt ((distSq (lm pinchFrame 4) (lm pinchFrame 8) : ℚ) : ℝ)
      < ((pinchThreshold : ℚ) : ℝ) := by
    rw [hd0]
    norm_num [pinchThreshold, Real.sqrt_zero]
  have h2 : Real.sqrt ((distSq (lm boundaryFrame 4) (lm boundaryFrame 8) : ℚ) : ℝ)
      = ((pinchThreshold : ℚ) : ℝ) := by
    rw [hdb, show (((1 : ℚ) / 400 : ℚ) : ℝ) = (1 / 20 : ℝ) ^ 2 by norm_num,
      Real.sqrt_sq (by norm_num)]
    norm_num [pinchThreshold]
  exact ⟨h1, (pinch_priority_and_strict_boundary pinchFrame).1 h1,
    h2, ((pinch_priority_and_strict_boundary boundaryFrame).2 h2).1⟩

/-- C9: on frames of at least 21 landmarks the whole classification
cascade reads only landmark indices 0 through 20 (it is unchanged by
truncating the frame to its first 21 points) and always returns one of
none / pinch / openHand / fist. -/
theorem classify_total_and_bounded (l : List Landmark) (_h : 21 ≤ l.length) :
    classify l = classify (l.take 21) ∧
    (classify l = none ∨ classify l = some .pinch ∨
      classify l = some .openHand ∨ classify l = some .fist) := by
  constructor
  · have hlm : ∀ i, i < 21 → lm (l.take 21) i = lm l i := by
      intro i hi
      simp [lm, List.getD, List.getElem?_take, hi]
    simp only [classify, isPinch, isOpenHand, isFist, extendedCount,
      closedCount, fistExclusionTriggers, fistPinchExclusion, fingerPairs,
      List.filter_cons, List.filter_nil]
    rw [hlm 3 (by norm_num), hlm 4 (by norm_num), hlm 5 (by norm_num),
      hlm 6 (by norm_num), hlm 8 (by norm_num), hlm 10 (by norm_num),
      hlm 12 (by norm_num), hlm 14 (by norm_num), hlm 16 (by norm_num),
      hlm 18 (by norm_num), hlm 20 (by norm_num)]
  · unfold classify
    split_ifs <;> simp

/-- Witness for C9 on the 21-point pinch frame. -/
theorem classify_total_witness :
    21 ≤ pinchFrame.length ∧
    classify pinchFrame = classify (pinchFrame.take 21) ∧
    (classify pinchFrame = none ∨ classify pinchFrame = some .pinch ∨
      classify pinchFrame = some .openHand ∨ classify pinchFrame = some .fist) := by
  have h : 21 ≤ pinchFrame.length := by simp [pinchFrame]
  exact ⟨h, (classify_total_and_bounded pinchFrame h).1,
    (classify_total_and_bounded pinchFrame h).2⟩

/-- Closed form of iterated bounded insertion: starting from a pool within
capacity, the surviving pool is the suffix of the full insertion sequence
of length at most the capacity, and the evicted/disposed objects are the
preceding prefix (the oldest insertions), in order. -/
theorem poolInsertAll_eq (cap : ℕ) (hc : 1 ≤ cap) :
    ∀ (xs pool : List α), pool.length ≤ cap →
      poolInsertAll cap pool xs
        = ((pool ++ xs).drop (pool.length + xs.length - cap),
           (pool ++ xs).take (pool.length + xs.length - cap)) := by
  intro xs
  induction xs with
  | nil =>
    intro pool hp
    have h0 : pool.length - cap = 0 := by omega
    simp [poolInsertAll, h0]
  | cons x xs ih =>
    intro pool hp
    have hax : (pool ++ [x]).length = pool.length + 1 := by simp
    have hxx : (x :: xs).length = xs.length + 1 := by simp
    simp only [poolInsertAll, poolInsert]
    by_cases hlen : cap < (pool ++ [x]).length
    · have hplen : pool.length = cap := by omega
      rw [if_pos hlen]
      obtain ⟨p, rest, rfl⟩ : ∃ p rest, pool = p :: rest := by
        cases pool with
        | nil =>
          exfalso
          simp only [List.length_nil] at hplen
          omega
        | cons a l => exact ⟨a, l, rfl⟩
      have h1 : (rest ++ [x]).length = rest.length + 1 := by simp
      have h2 : (p :: rest).length = rest.length + 1 := by simp
      have hrest : (rest ++ [x]).length ≤ cap := by omega
      have ihr := ih (rest ++ [x]) hrest
      have hidx : (rest ++ [x]).length + xs.length - cap = xs.length := by
        omega
      have hidx2 : (p :: rest).length + (x :: xs).length - cap
          = xs.length + 1 := by
        omega
      rw [hidx] at ihr
      rw [hidx2]
      simp only [List.cons_append, List.drop_succ_cons, List.take_succ_cons,
        List.drop_zero, List.take_zero, List.append_assoc,
        List.singleton_append, List.nil_append] at ihr ⊢
      rw [ihr]
    · rw [if_neg hlen]
      have hle : (pool ++ [x]).length ≤ cap := by omega
      have ihr := ih (pool ++ [x]) hle
      have hidx : (pool ++ [x]).length + xs.length - cap
          = pool.length + (x :: xs).length - cap := by
        omega
      rw [hidx] at ihr
      simp only [List.append_assoc, List.singleton_append,
        List.nil_append] at ihr ⊢
      rw [ihr]

/-- The neutral frame never produces a detection, inside or outside the
cooldown window. -/
theorem detectGesture_neutral (st : TrackState) (now : ℤ) :
    detectGesture st now neutralFrame = none := by
  unfold detectGesture
  split
  · rfl
  · exact classify_neutralFrame

/-- A neutral tick never fires and resets `currentGesture`. -/
theorem onResults_neutral (st : TrackState) (now : ℤ) :
    onResults st now (some neutralFrame)
      = ({ st with currentGesture := none, handLandmarks := some neutralFrame },
         none) := by
  simp [onResults, detectGesture_neutral]

/-- A pinch tick outside the cooldown window, with a differing remembered
gesture, fires: it emits the event and stamps `lastGestureTime`. -/
theorem onResults_pinch_fire (st : TrackState) (now : ℤ)
    (hcool : cooldownMs ≤ now - st.lastGestureTime)
    (hcur : st.currentGesture ≠ some .pinch) :
    onResults st now (some pinchFrame)
      = (⟨now, some .pinch, some pinchFrame⟩, some (.pinch, now)) := by
  have hdet : detectGesture st now pinchFrame = some .pinch := by
    unfold detectGesture
    rw [if_neg (by omega), classify_pinchFrame]
  simp only [onResults, hdet]
  rw [if_pos hcur]

/-- Runs of neutral ticks emit no events. -/
theorem runTrace_neutral_events (m : ℕ) : ∀ (t : ℤ) (st : TrackState),
    (runTrace st (neutralTicks t m)).2 = [] := by
  induction m with
  | zero =>
    intro t st
    rfl
  | succ n ih =>
    intro t st
    have h1 : neutralTicks t (n + 1)
        = (t, some neutralFrame) :: neutralTicks (t + 1) n := rfl
    rw [h1]
    simp only [runTrace, onResults_neutral]
    simp [ih]

/-- A nonempty run of neutral ticks ends with `currentGesture = none` and
`lastGestureTime` unchanged. -/
theorem runTrace_neutral_state (m : ℕ) : ∀ (t : ℤ) (st : TrackState), 1 ≤ m →
    (runTrace st (neutralTicks t m)).1
      = ⟨st.lastGestureTime, none, some neutralFrame⟩ := by
  induction m with
  | zero =>
    intro t st h
    omega
  | succ n ih =>
    intro t st _
    have h1 : neutralTicks t (n + 1)
        = (t, some neutralFrame) :: neutralTicks (t + 1) n := rfl
    rw [h1]
    simp only [runTrace, onResults_neutral]
    rcases Nat.eq_zero_or_pos n with hn | hn
    · subst hn
      simp [neutralTicks, runTrace]
    · rw [ih (t + 1) _ hn]

/-- Pinch ticks wholly inside the cooldown window of a fire at `τ` emit
nothing and end with `currentGesture = none` (this is what makes the next
classification read as changed). -/
theorem runTrace_pinch_quiet (m : ℕ) :
    ∀ (τ k : ℤ) (cur : Option Gesture) (hl : Option (List Landmark)),
      0 < k → k + m ≤ cooldownMs → 1 ≤ m →
      runTrace ⟨τ, cur, hl⟩ (pinchTicks (τ + k) m)
        = (⟨τ, none, some pinchFrame⟩, []) := by
  induction m with
  | zero =>
    intro τ k cur hl _ _ h1
    omega
  | succ n ih =>
    intro τ k cur hl hk hkm _
    have hdet : detectGesture ⟨τ, cur, hl⟩ (τ + k) pinchFrame = none := by
      unfold detectGesture
      rw [if_pos]
      show τ + k - τ < cooldownMs
      omega
    have hstep : onResults ⟨τ, cur, hl⟩ (τ + k) (some pinchFrame)
        = (⟨τ, none, some pinchFrame⟩, none) := by
      simp [onResults, hdet]
    rcases Nat.eq_zero_or_pos n with hn | hn
    · subst hn
      simp [pinchTicks, runTrace, hstep]
    · have hrec := ih τ (k + 1) none (some pinchFrame)
        (by omega) (by push_cast at hkm ⊢; omega) hn
      rw [show τ + (k + 1) = τ + k + 1 by ring] at hrec
      have h1 : pinchTicks (τ + k) (n + 1)
          = (τ + k, some pinchFrame) :: pinchTicks (τ + k + 1) n := rfl
      rw [h1]
      simp only [runTrace, hstep]
      simp [hrec]

/-- `pinchTicks` splits additively. -/
theorem pinchTicks_add (a : ℕ) : ∀ (t : ℤ) (b : ℕ),
    pinchTicks t (a + b) = pinchTicks t a ++ pinchTicks (t + a) b := by
  induction a with
  | zero =>
    intro t b
    simp [pinchTicks]
  | succ n ih =>
    intro t b
    have h : n + 1 + b = (n + b) + 1 := by omega
    rw [h]
    simp only [pinchTicks, List.cons_append]
    rw [ih (t + 1) b, show t + 1 + (n : ℤ) = t + ((n : ℕ) + 1 : ℕ) by
      push_cast
      ring]

/-- `runTrace` splits along list append. -/
theorem runTrace_append (l1 : List (ℤ × Option (List Landmark))) :
    ∀ (st : TrackState) (l2 : List (ℤ × Option (List Landmark))),
      runTrace st (l1 ++ l2)
        = ((runTrace (runTrace st l1).1 l2).1,
           (runTrace st l1).2 ++ (runTrace (runTrace st l1).1 l2).2) := by
  induction l1 with
  | nil =>
    intro st l2
    simp [runTrace]
  | cons x l1 ih =>
    intro st l2
    obtain ⟨t, f⟩ := x
    simp only [List.cons_append, runTrace]
    have hap : l1.append l2 = l1 ++ l2 := rfl
    rw [hap, ih]
    simp [List.append_assoc]

/-- One-step unfolding of `runTrace` on a cons cell. -/
theorem runTrace_cons (st : TrackState) (t : ℤ) (f : Option (List Landmark))
    (rest : List (ℤ × Option (List Landmark))) :
    runTrace st ((t, f) :: rest)
      = ((runTrace (onResults st t f).1 rest).1,
         (onResults st t f).2.toList
           ++ (runTrace (onResults st t f).1 rest).2) := rfl

/-- C3: (re-fire) from a fresh debouncer, a pinch-satisfying frame on every
millisecond tick for a duration of `3 × cooldownMs` (1500 ticks) emits
exactly 3 events, spaced exactly `cooldownMs` apart, at `t0`,
`t0 + cooldownMs` and `t0 + 2·cooldownMs`; (single-shot) a pinch frame for
a single tick followed by at least one non-matching frame, repeated with a
gap of at least `cooldownMs`, emits exactly one event per occurrence. -/
theorem debounce_refire_and_single_shot :
    (∀ t0 : ℤ, cooldownMs ≤ t0 →
      (runTrace initTrackState (pinchTicks t0 1500)).2
        = [(.pinch, t0), (.pinch, t0 + cooldownMs),
           (.pinch, t0 + 2 * cooldownMs)]) ∧
    (∀ (t1 t2 : ℤ) (m1 m2 : ℕ), cooldownMs ≤ t1 → 1 ≤ m1 →
      t1 + cooldownMs ≤ t2 →
      (runTrace initTrackState
          ((t1, some pinchFrame)
            :: (neutralTicks (t1 + 1) m1
              ++ (t2, some pinchFrame) :: neutralTicks (t2 + 1) m2))).2
        = [(.pinch, t1), (.pinch, t2)]) := by
  have hc : cooldownMs = 500 := rfl
  constructor
  · intro t0 ht0
    have f1 : onResults initTrackState t0 (some pinchFrame)
        = (⟨t0, some .pinch, some pinchFrame⟩, some (.pinch, t0)) := by
      apply onResults_pinch_fire
      · show cooldownMs ≤ t0 - (0 : ℤ)
        omega
      · simp [initTrackState]
    have q1 : runTrace ⟨t0, some .pinch, some pinchFrame⟩
          (pinchTicks (t0 + 1) 499)
        = (⟨t0, none, some pinchFrame⟩, []) :=
      runTrace_pinch_quiet 499 t0 1 (some .pinch) (some pinchFrame)
        (by norm_num) (by rw [hc]; norm_num) (by norm_num)
    have f2 : onResults ⟨t0, none, some pinchFrame⟩ (t0 + 500)
          (some pinchFrame)
        = (⟨t0 + 500, some .pinch, some pinchFrame⟩,
           some (.pinch, t0 + 500)) := by
      apply onResults_pinch_fire
      · show cooldownMs ≤ t0 + 500 - t0
        omega
      · simp
    have q2 : runTrace ⟨t0 + 500, some .pinch, some pinchFrame⟩
          (pinchTicks (t0 + 500 + 1) 499)
        = (⟨t0 + 500, none, some pinchFrame⟩, []) :=
      runTrace_pinch_quiet 499 (t0 + 500) 1 (some .pinch) (some pinchFrame)
        (by norm_num) (by rw [hc]; norm_num) (by norm_num)
    have f3 : onResults ⟨t0 + 500, none, some pinchFrame⟩ (t0 + 1000)
          (some pinchFrame)
        = (⟨t0 + 1000, some .pinch, some pinchFrame⟩,
           some (.pinch, t0 + 1000)) := by
      apply onResults_pinch_fire
      · show cooldownMs ≤ t0 + 1000 - (t0 + 500)
        omega
      · simp
    have q3 : runTrace ⟨t0 + 1000, some .pinch, some pinchFrame⟩
          (pinchTicks (t0 + 1000 + 1) 499)
        = (⟨t0 + 1000, none, some pinchFrame⟩, []) :=
      runTrace_pinch_quiet 499 (t0 + 1000) 1 (some .pinch) (some pinchFrame)
        (by norm_num) (by rw [hc]; norm_num) (by norm_num)
    have edec : pinchTicks t0 1500
        = (t0, some pinchFrame)
            :: (pinchTicks (t0 + 1) 499
              ++ ((t0 + 500, some pinchFrame)
                :: (pinchTicks (t0 + 500 + 1) 499
                  ++ ((t0 + 1000, some pinchFrame)
                    :: pinchTicks (t0 + 1000 + 1) 499)))) := by
      rw [show pinchTicks t0 1500
          = (t0, some pinchFrame) :: pinchTicks (t0 + 1) 1499 from rfl]
      rw [show (1499 : ℕ) = 499 + 1000 from rfl, pinchTicks_add]
      rw [show t0 + 1 + ((499 : ℕ) : ℤ) = t0 + 500 by push_cast; ring]
      rw [show pinchTicks (t0 + 500) 1000
          = (t0 + 500, some pinchFrame) :: pinchTicks (t0 + 500 + 1) 999
          from rfl]
      rw [show (999 : ℕ) = 499 + 500 from rfl, pinchTicks_add]
      rw [show t0 + 500 + 1 + ((499 : ℕ) : ℤ) = t0 + 1000 by push_cast; ring]
      rw [show pinchTicks (t0 + 1000) 500
          = (t0 + 1000, some pinchFrame) :: pinchTicks (t0 + 1000 + 1) 499
          from rfl]
    rw [edec]
    rw [runTrace_cons]
    simp only [f1]
    rw [runTrace_append]
    simp only [q1]
    rw [runTrace_cons]
    simp only [f2]
    rw [runTrace_append]
    simp only [q2]
    rw [runTrace_cons]
    simp only [f3, q3]
    simp only [Option.toList_some, Option.toList_none, List.nil_append,
      List.append_nil, List.cons_append, List.singleton_append, hc]
    norm_num
  · intro t1 t2 m1 m2 ht1 hm1 h12
    have f1 : onResults initTrackState t1 (some pinchFrame)
        = (⟨t1, some .pinch, some pinchFrame⟩, some (.pinch, t1)) := by
      apply onResults_pinch_fire
      · show cooldownMs ≤ t1 - (0 : ℤ)
        omega
      · simp [initTrackState]
    have n1 : runTrace ⟨t1, some .pinch, some pinchFrame⟩
          (neutralTicks (t1 + 1) m1)
        = ((⟨t1, none, some neutralFrame⟩ : TrackState), []) := by
      have hst := runTrace_neutral_state m1 (t1 + 1)
        ⟨t1, some .pinch, some pinchFrame⟩ hm1
      have hev := runTrace_neutral_events m1 (t1 + 1)
        ⟨t1, some .pinch, some pinchFrame⟩
      exact Prod.ext hst hev
    have f2 : onResults ⟨t1, none, some neutralFrame⟩ t2 (some pinchFrame)
        = (⟨t2, some .pinch, some pinchFrame⟩, some (.pinch, t2)) := by
      apply onResults_pinch_fire
      · show cooldownMs ≤ t2 - t1
        omega
      · simp
    have n2 := runTrace_neutral_events m2 (t2 + 1)
      ⟨t2, some .pinch, some pinchFrame⟩
    rw [runTrace_cons]
    simp only [f1]
    rw [runTrace_append]
    simp only [n1]
    rw [runTrace_cons]
    simp only [f2, n2]
    simp only [Option.toList_some, Option.toList_none, List.nil_append,
      List.append_nil, List.cons_append, List.singleton_append]

/-- Witness for C3 at `t0 = 500`, and an isolated pair of pinches at
`t1 = 500`, `t2 = 1000` with one neutral tick in between. -/
theorem debounce_refire_witness :
    ((runTrace initTrackState (pinchTicks 500 1500)).2
        = [(.pinch, 500), (.pinch, 1000), (.pinch, 1500)]) ∧
    ((runTrace initTrackState
        ((500, some pinchFrame)
          :: (neutralTicks 501 1
            ++ (1000, some pinchFrame) :: neutralTicks 1001 0))).2
      = [(.pinch, 500), (.pinch, 1000)]) := by
  constructor
  · have h := debounce_refire_and_single_shot.1 500 (by norm_num [cooldownMs])
    rw [h]
    norm_num [cooldownMs]
  · exact debounce_refire_and_single_shot.2 500 1000 1 0
      (by norm_num [cooldownMs]) (le_refl 1) (by norm_num [cooldownMs])

/-- C2: inserting `capacity + k` objects one at a time into an initially
empty pool (orbs, capacity 10; pendants, capacity 5) leaves exactly the
last `capacity` insertions in the pool, with the `k` oldest insertions
evicted and disposed, in order; one insertion never leaves a
within-capacity pool above capacity; and the world-level `createOrb` /
`createPendant` pool updates coincide with this `poolInsert`. -/
theorem pool_capacity_eviction (xs ys : List ℕ) (k j : ℕ)
    (hk : 1 ≤ k) (hx : xs.length = maxOrbs + k)
    (hj : 1 ≤ j) (hy : ys.length = maxPendants + j) :
    (poolInsertAll maxOrbs [] xs).1 = xs.drop k ∧
    (poolInsertAll maxOrbs [] xs).1.length = maxOrbs ∧
    (poolInsertAll maxOrbs [] xs).2 = xs.take k ∧
    (poolInsertAll maxPendants [] ys).1 = ys.drop j ∧
    (poolInsertAll maxPendants [] ys).1.length = maxPendants ∧
    (poolInsertAll maxPendants [] ys).2 = ys.take j ∧
    (∀ (pool : List ℕ) (x : ℕ), pool.length ≤ maxOrbs →
      (poolInsert maxOrbs pool x).1.length ≤ maxOrbs) ∧
    (∀ (pool : List ℕ) (x : ℕ), pool.length ≤ maxPendants →
      (poolInsert maxPendants pool x).1.length ≤ maxPendants) ∧
    (∀ (st : WorldState) (o p : ARObject),
      (createOrb st o).orbs = (poolInsert maxOrbs st.orbs o).1 ∧
      (createPendant st p).pendants = (poolInsert maxPendants st.pendants p).1) := by
  have hOrb := poolInsertAll_eq maxOrbs (by norm_num [maxOrbs]) xs
    ([] : List ℕ) (by simp)
  have hPen := poolInsertAll_eq maxPendants (by norm_num [maxPendants]) ys
    ([] : List ℕ) (by simp)
  simp only [List.nil_append, List.length_nil, Nat.zero_add] at hOrb hPen
  have hkk : xs.length - maxOrbs = k := by omega
  have hjj : ys.length - maxPendants = j := by omega
  rw [hkk] at hOrb
  rw [hjj] at hPen
  refine ⟨by rw [hOrb], ?_, by rw [hOrb], by rw [hPen], ?_, by rw [hPen],
    ?_, ?_, ?_⟩
  · rw [hOrb]
    simp only [List.length_drop]
    omega
  · rw [hPen]
    simp only [List.length_drop]
    omega
  · intro pool x hp
    have hax : (pool ++ [x]).length = pool.length + 1 := by simp
    simp only [poolInsert]
    split
    · show ((pool ++ [x]).drop 1).length ≤ maxOrbs
      simp only [List.length_drop]
      omega
    · show (pool ++ [x]).length ≤ maxOrbs
      omega
  · intro pool x hp
    have hax : (pool ++ [x]).length = pool.length + 1 := by simp
    simp only [poolInsert]
    split
    · show ((pool ++ [x]).drop 1).length ≤ maxPendants
      simp only [List.length_drop]
      omega
    · show (pool ++ [x]).length ≤ maxPendants
      omega
  · intro st o p
    constructor
    · obtain ⟨a, rest, ha⟩ : ∃ a rest, st.orbs ++ [o] = a :: rest := by
        cases horbs : st.orbs with
        | nil => exact ⟨o, [], by simp⟩
        | cons b l => exact ⟨b, l ++ [o], by simp⟩
      simp only [createOrb, poolInsert, removeOrb, ha]
      by_cases hcond : maxOrbs < (a :: rest).length
      · rw [if_pos hcond, if_pos hcond]
        simp [List.erase_cons_head]
      · rw [if_neg hcond, if_neg hcond]
    · obtain ⟨a, rest, ha⟩ : ∃ a rest, st.pendants ++ [p] = a :: rest := by
        cases hps : st.pendants with
        | nil => exact ⟨p, [], by simp⟩
        | cons b l => exact ⟨b, l ++ [p], by simp⟩
      simp only [createPendant, connectToOrbs, poolInsert, removePendant, ha]
      by_cases hcond : maxPendants < (a :: rest).length
      · rw [if_pos hcond, if_pos hcond]
        simp [List.erase_cons_head]
      · rw [if_neg hcond, if_neg hcond]

/-- Witness for C2 with eleven orb insertions and six pendant
insertions. -/
theorem pool_capacity_witness :
    ((1 : ℕ) ≤ 1 ∧ (List.range 11).length = maxOrbs + 1
        ∧ (List.range 6).length = maxPendants + 1) ∧
    (poolInsertAll maxOrbs [] (List.range 11)).1 = (List.range 11).drop 1 ∧
    (poolInsertAll maxPendants [] (List.range 6)).2 = (List.range 6).take 1 := by
  have h := pool_capacity_eviction (List.range 11) (List.range 6) 1 1
    (le_refl 1) (by simp [maxOrbs]) (le_refl 1) (by simp [maxPendants])
  exact ⟨⟨le_refl 1, by simp [maxOrbs], by simp [maxPendants]⟩,
    h.1, h.2.2.2.2.2.1⟩

/-- C1 as amended: removing a pendant removes, in the same step, exactly
those connections whose recorded pendant endpoint is the removed pendant;
removing an orb — directly, by eviction inside `createOrb`, or via
`clearAllOrbs` — removes no connections at all. -/
theorem removal_connection_behavior (st : WorldState) (p o q : ARObject) :
    (removePendant st p).connections
        = st.connections.filter (fun c => ¬ c.pendant = some p.id) ∧
    (removeOrb st o).connections = st.connections ∧
    (createOrb st q).connections = st.connections ∧
    (clearAllOrbs st).connections = st.connections := by
  refine ⟨rfl, rfl, ?_, rfl⟩
  simp only [createOrb]
  split
  · split <;> rfl
  · rfl

end WebAR
